import Mathlib

/-!
Verification of the rule-based Java pattern/vulnerability detection engine.

The source programs are `direct_detection.py` (pattern rules and the
priority-ordered vulnerability rules) and `api_server.py` (metric
extraction and report aggregation).  Python strings are modelled as
`String` (lists of characters); the Python substring test `sub in s`,
occurrence count `s.count(sub)`, lowercasing `s.lower()` and line
splitting on the newline character are embedded below.  Real arithmetic from the
source is modelled over `ℚ`.
-/

/-- Whether `pre` is an initial segment of `l` (character-wise). -/
def startsWithL : List Char → List Char → Bool
  | [], _ => true
  | _ :: _, [] => false
  | a :: as, b :: bs => a == b && startsWithL as bs

/-- The Python substring test `sub in s` over character lists. -/
def hasSubL (sub : List Char) : List Char → Bool
  | [] => startsWithL sub []
  | c :: rest => startsWithL sub (c :: rest) || hasSubL sub rest

/-- Fuel-driven worker for `countSubL`; the fuel is the length of the
scanned list, which bounds the number of one-character advances. -/
def countSubAux (sub : List Char) : Nat → List Char → Nat
  | 0, _ => 0
  | _ + 1, [] => 0
  | fuel + 1, c :: rest =>
    if startsWithL sub (c :: rest) then
      1 + countSubAux sub fuel (List.drop (sub.length - 1) rest)
    else
      countSubAux sub fuel rest

/-- The Python method `s.count(sub)`: non-overlapping occurrences, scanning left
to right. -/
def countSubL (sub s : List Char) : Nat := countSubAux sub s.length s

/-- Source `sub in s` on strings. -/
def strHas (s sub : String) : Bool := hasSubL sub.data s.data

/-- Source `s.count(sub)` on strings. -/
def strCount (s sub : String) : Nat := countSubL sub.data s.data

/-- The Python method `s.lower()` (ASCII-relevant case folding). -/
def lowerStr (s : String) : String := ⟨s.data.map Char.toLower⟩

/-- The Python split on the newline character, over character lists. -/
def splitNl : List Char → List (List Char)
  | [] => [[]]
  | c :: rest =>
    if c = '\n' then [] :: splitNl rest
    else
      match splitNl rest with
      | [] => [[c]]
      | l :: ls => (c :: l) :: ls

/-- The line list of the source text. -/
def linesOf (s : String) : List (List Char) := splitNl s.data

/-- Line test for `if`: `" if " in l or " if(" in l or "if(" in l`
(api_server.py line 102, direct_detection.py line 37). -/
def ifLineB (l : List Char) : Bool :=
  hasSubL " if ".data l || hasSubL " if(".data l || hasSubL "if(".data l

/-- Line test for `for`: `" for " in l or " for(" in l or "for(" in l`
(api_server.py line 103, direct_detection.py line 426). -/
def forLineB (l : List Char) : Bool :=
  hasSubL " for ".data l || hasSubL " for(".data l || hasSubL "for(".data l

/-- Line test for `while`: `" while " in l or " while(" in l`
(api_server.py line 104). -/
def whileLineB (l : List Char) : Bool :=
  hasSubL " while ".data l || hasSubL " while(".data l

/-- Line test for `switch`: `"switch" in l` (api_server.py line 105). -/
def switchLineB (l : List Char) : Bool := hasSubL "switch".data l

/-- Source `num_if` from the source. -/
def numIf (s : String) : Nat := ((linesOf s).filter ifLineB).length

/-- Source `num_for` from the source. -/
def numFor (s : String) : Nat := ((linesOf s).filter forLineB).length

/-- Source `num_while` from the source. -/
def numWhile (s : String) : Nat := ((linesOf s).filter whileLineB).length

/-- Source `num_switch` from the source. -/
def numSwitch (s : String) : Nat := ((linesOf s).filter switchLineB).length

/-- Source `num_classes = java_code.count("class ")`. -/
def numClasses (s : String) : Nat := strCount s "class "

/-- Source `num_interfaces = java_code.count("interface ")`. -/
def numInterfaces (s : String) : Nat := strCount s "interface "

/-- Source `num_methods = count("public ") + count("private ") + count("protected ")`. -/
def numMethods (s : String) : Nat :=
  strCount s "public " + strCount s "private " + strCount s "protected "

/-- Source `num_static = java_code.count("static ")`. -/
def numStatic (s : String) : Nat := strCount s "static "

/-! ## Vulnerability detection (`detect_vulnerabilities_directly`, direct_detection.py lines 565-650) -/

/-- Severity labels used by the vulnerability rules. -/
inductive Severity
  | LOW
  | MEDIUM
  | HIGH
  | CRITICAL
deriving DecidableEq, Repr

/-- The record returned by `detect_vulnerabilities_directly`
(`references` is always the empty list in the source and is omitted). -/
structure VulnResult where
  vulnerability : String
  severity : Severity
  confidence : ℚ
  description : String
deriving DecidableEq, Repr

/-- SQL-injection predicate (direct_detection.py lines 571-572). -/
def sqlInjectionPred (s : String) : Bool :=
  ((strHas s "+" || strHas (lowerStr s) "concat") &&
    (strHas s "SELECT" || strHas (lowerStr s) "select")) ||
  (strHas s "\"SELECT" && strHas s "+")

/-- XSS predicate (line 582). -/
def xssPred (s : String) : Bool :=
  (strHas s "@GetMapping" && strHas s "return \"<") ||
  (strHas s "<div>" && strHas s "+")

/-- Path-traversal predicate (lines 592-593). -/
def pathTraversalPred (s : String) : Bool :=
  ((strHas s "File(" || strHas s "Paths.get") && strHas s "+") ||
  (strHas (lowerStr s) "uploads" && strHas s "+")

/-- XXE predicate (line 603). -/
def xxePred (s : String) : Bool :=
  (strHas s "DocumentBuilderFactory" || strHas s "parseXML") &&
  !(strHas s "setFeature")

/-- Authentication-bypass predicate (lines 613-614). -/
def authBypassPred (s : String) : Bool :=
  strHas s "password.length()" || strHas s ".equals(\"admin\")" ||
  (strHas s ".length() >" && strHas (lowerStr s) "password")

/-- Insecure-deserialization predicate (line 624). -/
def deserializationPred (s : String) : Bool :=
  strHas s "ObjectInputStream" && strHas s ".readObject()"

/-- Secure-state predicate (line 634). -/
def secureStatePred (s : String) : Bool :=
  (strHas s "BCryptPasswordEncoder" || strHas s "encoder.encode") &&
  strHas s "@Valid"

/-- Result of the SQL-injection branch. -/
def sqlInjectionResult : VulnResult :=
  ⟨"sql_injection", Severity.HIGH, 0.92,
    "SQL Injection vulnerability detected - unsafe string concatenation in SQL query"⟩

/-- Result of the XSS branch. -/
def xssResult : VulnResult :=
  ⟨"xss", Severity.HIGH, 0.90, "XSS vulnerability detected - unescaped HTML output"⟩

/-- Result of the path-traversal branch. -/
def pathTraversalResult : VulnResult :=
  ⟨"path_traversal", Severity.HIGH, 0.88,
    "Path Traversal vulnerability detected - unsafe file path handling"⟩

/-- Result of the XXE branch. -/
def xxeResult : VulnResult :=
  ⟨"xxe", Severity.MEDIUM, 0.85, "XXE vulnerability detected - unprotected XML parsing"⟩

/-- Result of the authentication-bypass branch. -/
def authBypassResult : VulnResult :=
  ⟨"authentication_bypass", Severity.CRITICAL, 0.87,
    "Authentication Bypass vulnerability detected - weak authentication logic"⟩

/-- Result of the insecure-deserialization branch. -/
def deserializationResult : VulnResult :=
  ⟨"insecure_deserialization", Severity.CRITICAL, 0.89,
    "Insecure Deserialization vulnerability detected - unsafe object deserialization"⟩

/-- Result of the secure-state branch. -/
def secureStateResult : VulnResult :=
  ⟨"none", Severity.LOW, 0.95,
    "Secure implementation detected - proper password hashing and validation"⟩

/-- The fall-through result. -/
def defaultNoneResult : VulnResult :=
  ⟨"none", Severity.LOW, 0.50, "No obvious vulnerabilities detected"⟩

/-- Source `detect_vulnerabilities_directly`: a priority-ordered decision list
with return-on-first-match. -/
def detectVuln (s : String) : VulnResult :=
  if sqlInjectionPred s then sqlInjectionResult
  else if xssPred s then xssResult
  else if pathTraversalPred s then pathTraversalResult
  else if xxePred s then xxeResult
  else if authBypassPred s then authBypassResult
  else if deserializationPred s then deserializationResult
  else if secureStatePred s then secureStateResult
  else defaultNoneResult

/-- The raw predicate of the `i`-th branch of `detectVuln` (index 7 is
the unconditional fall-through). -/
def vulnRulePred : Nat → String → Bool
  | 0, s => sqlInjectionPred s
  | 1, s => xssPred s
  | 2, s => pathTraversalPred s
  | 3, s => xxePred s
  | 4, s => authBypassPred s
  | 5, s => deserializationPred s
  | 6, s => secureStatePred s
  | _, _ => true

/-- Branch `i` fires on input `s` under first-match semantics: its raw
predicate holds and every earlier raw predicate fails. -/
def vulnBranchFires (s : String) (i : Nat) : Prop :=
  i < 8 ∧ vulnRulePred i s = true ∧ ∀ j, j < i → vulnRulePred j s = false

/-- Claim C1: `detectVuln` evaluates its rules as a fixed-order decision
list with return-on-first-match, so for every input exactly one branch
fires; in particular any input satisfying both the SQL-injection
predicate and the XXE predicate yields the `sql_injection`/HIGH result,
not `xxe`. -/
theorem claim_C1_decision_list (s : String) :
    (∃! i : ℕ, vulnBranchFires s i) ∧
    (sqlInjectionPred s = true → xxePred s = true →
      detectVuln s = sqlInjectionResult) := by
  constructor
  · have hex : ∃ n, vulnRulePred n s = true := ⟨7, rfl⟩
    refine ⟨Nat.find hex, ⟨?_, Nat.find_spec hex, ?_⟩, ?_⟩
    · have h7 : Nat.find hex ≤ 7 := Nat.find_min' hex rfl
      omega
    · intro j hj
      simpa using Nat.find_min hex hj
    · rintro y ⟨hy8, hyt, hymin⟩
      have hle : Nat.find hex ≤ y := Nat.find_min' hex hyt
      rcases Nat.lt_or_ge (Nat.find hex) y with h | h
      · have hfalse := hymin _ h
        have htrue := Nat.find_spec hex
        rw [htrue] at hfalse
        cases hfalse
      · omega
  · intro h1 _
    simp [detectVuln, h1]

/-- Witness for C1: an input satisfying both the SQL-injection and XXE
raw predicates resolves to the SQL-injection result. -/
theorem claim_C1_decision_list_witness :
    sqlInjectionPred "DocumentBuilderFactory + SELECT" = true ∧
    xxePred "DocumentBuilderFactory + SELECT" = true ∧
    detectVuln "DocumentBuilderFactory + SELECT" = sqlInjectionResult :=
  ⟨by decide, by decide,
    (claim_C1_decision_list "DocumentBuilderFactory + SELECT").2 (by decide) (by decide)⟩

/-! ## Report aggregation (`analyze_code`, api_server.py lines 869-1009) -/

/-- One entry of the `vulnerabilities` list of the report (type key and
severity; the display formatting is irrelevant to the claims). -/
structure Finding where
  vtype : String
  severity : Severity
deriving DecidableEq, Repr

/-- The `vulnerabilities` list of the report: empty when the detector
returned the `none` key, otherwise the single finding
(api_server.py lines 945-958). -/
def vulnFindings (s : String) : List Finding :=
  if (detectVuln s).vulnerability = "none" then []
  else [⟨(detectVuln s).vulnerability, (detectVuln s).severity⟩]

/-- Source `overall_risk` computed from the findings list
(api_server.py lines 961-963). -/
def riskOf (fs : List Finding) : String :=
  if fs.any (fun f => f.severity == Severity.CRITICAL || f.severity == Severity.HIGH) then
    if fs.any (fun f => f.severity == Severity.CRITICAL) then "HIGH" else "MEDIUM"
  else "LOW"

/-- The `overallRisk` field of the report. -/
def overallRisk (s : String) : String := riskOf (vulnFindings s)

/-- The severities of the reported findings. -/
def findingSeverities (s : String) : List Severity :=
  (vulnFindings s).map Finding.severity

/-- The decision list has exactly eight possible outcomes. -/
theorem detectVuln_cases (s : String) :
    detectVuln s = sqlInjectionResult ∨ detectVuln s = xssResult ∨
    detectVuln s = pathTraversalResult ∨ detectVuln s = xxeResult ∨
    detectVuln s = authBypassResult ∨ detectVuln s = deserializationResult ∨
    detectVuln s = secureStateResult ∨ detectVuln s = defaultNoneResult := by
  unfold detectVuln
  split_ifs <;> simp

/-- Claim C2: `overallRisk` is `"HIGH"` iff some reported finding is
CRITICAL, `"MEDIUM"` iff none is CRITICAL but some is HIGH, and `"LOW"`
otherwise (in particular when the only finding is MEDIUM or the list is
empty). -/
theorem claim_C2_overall_risk (s : String) :
    (overallRisk s = "HIGH" ↔ Severity.CRITICAL ∈ findingSeverities s) ∧
    (overallRisk s = "MEDIUM" ↔
      (Severity.CRITICAL ∉ findingSeverities s ∧ Severity.HIGH ∈ findingSeverities s)) ∧
    (overallRisk s = "LOW" ↔
      (Severity.CRITICAL ∉ findingSeverities s ∧ Severity.HIGH ∉ findingSeverities s)) := by
  rcases detectVuln_cases s with h | h | h | h | h | h | h | h <;>
    · unfold overallRisk findingSeverities vulnFindings riskOf
      rw [h]
      decide

/-- Claim C9: any input containing `ObjectInputStream` and
`.readObject()` on which the five higher-priority predicates fail is
classified as insecure deserialization with severity CRITICAL, and the
overall risk of the report is `"HIGH"`. -/
theorem claim_C9_insecure_deserialization (s : String)
    (h1 : strHas s "ObjectInputStream" = true)
    (h2 : strHas s ".readObject()" = true)
    (h3 : sqlInjectionPred s = false) (h4 : xssPred s = false)
    (h5 : pathTraversalPred s = false) (h6 : xxePred s = false)
    (h7 : authBypassPred s = false) :
    (detectVuln s).vulnerability = "insecure_deserialization" ∧
    (detectVuln s).severity = Severity.CRITICAL ∧
    overallRisk s = "HIGH" := by
  have hd : deserializationPred s = true := by
    unfold deserializationPred
    rw [h1, h2]
    rfl
  have hres : detectVuln s = deserializationResult := by
    simp [detectVuln, h3, h4, h5, h6, h7, hd]
  refine ⟨by rw [hres]; rfl, by rw [hres]; rfl, ?_⟩
  unfold overallRisk vulnFindings riskOf
  rw [hres]
  decide

/-- Witness for C9 at a concrete deserialization snippet. -/
theorem claim_C9_insecure_deserialization_witness :
    (detectVuln "ObjectInputStream ois; ois.readObject()").vulnerability =
      "insecure_deserialization" ∧
    (detectVuln "ObjectInputStream ois; ois.readObject()").severity = Severity.CRITICAL ∧
    overallRisk "ObjectInputStream ois; ois.readObject()" = "HIGH" :=
  claim_C9_insecure_deserialization "ObjectInputStream ois; ois.readObject()"
    (by decide) (by decide) (by decide) (by decide) (by decide) (by decide) (by decide)

/-! ## Metric extraction (`extract_code_metrics`, api_server.py lines 83-559) -/

namespace ApiServer

/-- Source `has_private_constructor` (api_server.py line 112). -/
def hasPrivateCtor (s : String) : Bool := strHas s "private " && strHas s "()"

/-- Source `has_static_instance` (line 113). -/
def hasStaticInstance (s : String) : Bool :=
  (strHas s "static" && strHas (lowerStr s) "instance") || strHas s "private static"

/-- Source `has_get_instance` (line 114). -/
def hasGetInstance (s : String) : Bool := strHas s "getInstance" || strHas s "instance()"

/-- Source `is_singleton` (line 115). -/
def isSingleton (s : String) : Bool :=
  hasPrivateCtor s && hasStaticInstance s && hasGetInstance s

/-- Source `has_factory_keywords` (line 118). -/
def hasFactoryKeywords (s : String) : Bool :=
  strHas s "getCar" || strHas s "getProduct" || strHas s "createButton" ||
  strHas s "create" || strHas s "Factory"

/-- Source `has_switch_return` (line 119). -/
def hasSwitchReturn (s : String) : Bool := strHas s "switch" && strHas s "return new"

/-- Source `has_if_return` (line 120). -/
def hasIfReturn (s : String) : Bool := decide (2 ≤ numIf s) && strHas s "return new"

/-- Source `is_factory` (lines 121-122). -/
def isFactory (s : String) : Bool :=
  (hasFactoryKeywords s && (hasSwitchReturn s || hasIfReturn s)) ||
  (strHas s "Factory" && strHas s "return new" && decide (1 ≤ numStatic s))

/-- Source `has_builder_class` (line 125). -/
def hasBuilderClass (s : String) : Bool :=
  (strHas s "Builder" || strHas (lowerStr s) "builder") && decide (2 ≤ numClasses s)

/-- Source `has_build_method` (line 126). -/
def hasBuildMethod (s : String) : Bool := strHas s "build()" || strHas s ".build()"

/-- Source `has_fluent_api` (line 127). -/
def hasFluentApi (s : String) : Bool := strHas s "return this"

/-- Source `has_chaining` (line 128). -/
def hasChaining (s : String) : Bool := decide (2 ≤ strCount s "return this")

/-- Source `is_builder` (lines 129-130). -/
def isBuilder (s : String) : Bool :=
  (hasBuilderClass s && hasBuildMethod s && hasFluentApi s) ||
  (hasChaining s && hasBuildMethod s)

/-- Source `has_clone` (line 133); Python precedence: `a or b or (c and d)`. -/
def hasClone (s : String) : Bool :=
  strHas s ".clone()" || strHas s "clone()" ||
  (strHas s "@Override" && strHas (lowerStr s) "clone")

/-- Source `has_cloneable` (line 134). -/
def hasCloneable (s : String) : Bool :=
  strHas s "Cloneable" || strHas s "implements Cloneable"

/-- Source `has_copy_constructor` (line 135): the source expression is
`("public " in java_code or "private ") and "(this)" in java_code`;
the left operand is always truthy in Python (a non-empty string
literal), so the whole conjunction reduces to the `"(this)"` test. -/
def hasCopyCtor (s : String) : Bool := strHas s "(this)"

/-- Source `is_prototype` (line 136). -/
def isPrototype (s : String) : Bool :=
  hasClone s || hasCloneable s || (hasCopyCtor s && decide (1 ≤ numMethods s))

/-- Source `has_abstract_factory` (line 139); Python precedence: `a or (b and c)`. -/
def hasAbstractFactoryName (s : String) : Bool :=
  strHas s "AbstractFactory" || (strHas (lowerStr s) "abstract" && strHas s "Factory")

/-- Source `has_factory_interface` (line 140). -/
def hasFactoryInterface (s : String) : Bool := strHas s "interface" && strHas s "Factory"

/-- Source `has_multiple_create` (line 141). -/
def hasMultipleCreate (s : String) : Bool :=
  decide (2 ≤ strCount s "create") || decide (2 ≤ strCount s "Factory")

/-- Source `is_abstract_factory` (lines 142-143). -/
def isAbstractFactory (s : String) : Bool :=
  hasAbstractFactoryName s ||
  (hasFactoryInterface s && hasMultipleCreate s && decide (1 ≤ numInterfaces s))

/-- Source `has_adaptee` (line 149). -/
def hasAdaptee (s : String) : Bool :=
  strHas (lowerStr s) "adaptee" || strHas (lowerStr s) "wrapped"

/-- Source `has_delegation` (line 150). -/
def hasDelegation (s : String) : Bool :=
  strHas s "adaptee." || strHas s ".playVlc" || strHas s "legacy."

/-- Source `is_adapter` (lines 151-152). -/
def isAdapter (s : String) : Bool :=
  strHas s "Adapter" || (hasAdaptee s && strHas s "implements") ||
  (hasDelegation s && strHas s "implements")

/-- Source `has_component` (line 156). -/
def hasComponentWord (s : String) : Bool :=
  strHas (lowerStr s) "component" || strHas s "Component"

/-- Source `wraps_and_calls` (line 157). -/
def wrapsAndCalls (s : String) : Bool := strHas s "component." && strHas s "implements"

/-- Source `is_decorator` (line 158). -/
def isDecorator (s : String) : Bool :=
  strHas s "Decorator" ||
  (hasComponentWord s && wrapsAndCalls s && decide (1 ≤ numClasses s))

/-- Source `has_real_subject` (line 162). -/
def hasRealSubject (s : String) : Bool :=
  strHas (lowerStr s) "real" && (strHas s "Subject" || strHas s "Image")

/-- Source `has_check_access` (line 163); Python precedence: `a or (b and c)`. -/
def hasCheckAccess (s : String) : Bool :=
  strHas s "checkAccess" || (strHas (lowerStr s) "check" && strHas (lowerStr s) "access")

/-- Source `is_proxy` (lines 164-165). -/
def isProxy (s : String) : Bool :=
  strHas s "Proxy" || (hasRealSubject s && hasCheckAccess s) ||
  (strHas (lowerStr s) "real." && strHas s "implements")

/-- Source `has_children` (line 169). -/
def hasChildren (s : String) : Bool :=
  strHas (lowerStr s) "children" || strHas s "List<Component>"

/-- Source `has_add_method` (line 170). -/
def hasAddMethod (s : String) : Bool := strHas s ".add(" && hasChildren s

/-- Source `has_loop_children` (line 171). -/
def hasLoopChildren (s : String) : Bool := strHas s "for" && strHas (lowerStr s) "children"

/-- Source `is_composite` (line 172). -/
def isComposite (s : String) : Bool :=
  strHas s "Composite" || (hasChildren s && hasAddMethod s) || hasLoopChildren s

/-- Source `has_multiple_systems` (line 176). -/
def hasMultipleSystems (s : String) : Bool :=
  decide (2 ≤ strCount s "System") || decide (5 ≤ strCount s ".")

/-- Source `simplifies` (line 177). -/
def simplifies (s : String) : Bool := decide (2 ≤ numMethods s) && hasMultipleSystems s

/-- Source `is_facade` (line 178). -/
def isFacade (s : String) : Bool :=
  strHas s "Facade" || (simplifies s && decide (numClasses s ≤ 3))

/-- Source `has_implementation` (line 182). -/
def hasImplementationWord (s : String) : Bool :=
  strHas (lowerStr s) "implementation" || strHas s "DrawingAPI"

/-- Source `has_abstract_shape` (line 183). -/
def hasAbstractShape (s : String) : Bool :=
  strHas s "abstract" && (strHas s "Shape" || strHas s "class")

/-- Source `is_bridge` (line 184). -/
def isBridge (s : String) : Bool :=
  strHas s "Bridge" || (hasImplementationWord s && hasAbstractShape s)

/-- Source `has_cache` (line 188). -/
def hasCache (s : String) : Bool :=
  strHas (lowerStr s) "cache" || strHas s "Map<" || strHas s "HashMap"

/-- Source `has_get_or_create` (line 189); Python precedence: `a or (b and c)`. -/
def hasGetOrCreate (s : String) : Bool :=
  strHas s "containsKey" || (strHas s "get" && strHas s "put")

/-- Source `is_flyweight` (line 190). -/
def isFlyweight (s : String) : Bool :=
  strHas s "Flyweight" || (hasCache s && hasGetOrCreate s)

/-- Source `has_set_strategy` (line 197). -/
def hasSetStrategy (s : String) : Bool :=
  strHas s "setStrategy" || strHas (lowerStr s) "strategy"

/-- Source `is_strategy` (line 198). -/
def isStrategy (s : String) : Bool :=
  strHas s "Strategy" || (strHas s "Context" && hasSetStrategy s)

/-- Source `has_observers_list` (line 202). -/
def hasObserversList (s : String) : Bool :=
  strHas s "List<Observer>" || strHas (lowerStr s) "observers"

/-- Source `has_notify` (line 203). -/
def hasNotify (s : String) : Bool :=
  strHas (lowerStr s) "notify" || strHas (lowerStr s) "update"

/-- Source `has_attach` (line 204). -/
def hasAttach (s : String) : Bool :=
  strHas (lowerStr s) "attach" || strHas (lowerStr s) "register"

/-- Source `is_observer` (line 205). -/
def isObserver (s : String) : Bool :=
  strHas s "Observer" || (hasObserversList s && (hasNotify s || hasAttach s))

/-- Source `has_execute` (line 209). -/
def hasExecute (s : String) : Bool := strHas s "execute()" || strHas s "execute("

/-- Source `has_receiver` (line 210); Python precedence: `a or (b and c)`. -/
def hasReceiver (s : String) : Bool :=
  strHas (lowerStr s) "receiver" || (strHas s "Light" && strHas s "Command")

/-- Source `is_command` (line 211). -/
def isCommand (s : String) : Bool :=
  strHas s "Command" || (hasExecute s && hasReceiver s)

/-- Source `is_service_layer` (line 291). -/
def isServiceLayer (s : String) : Bool :=
  strHas s "@Service" || (strHas s "@Transactional" && strHas s "@Autowired")

/-- Source `has_rest_controller` (line 272). -/
def hasRestController (s : String) : Bool :=
  strHas s "@RestController" || strHas s "@Controller"

/-- Source `has_mapping` (line 273). -/
def hasMapping (s : String) : Bool :=
  strHas s "@GetMapping" || strHas s "@PostMapping" || strHas s "@RequestMapping"

/-- Source `has_path_variable` (line 274). -/
def hasPathVariable (s : String) : Bool :=
  strHas s "@PathVariable" || strHas s "@RequestBody"

/-- Source `is_spring_mvc` (line 275). -/
def isSpringMvc (s : String) : Bool :=
  hasRestController s && (hasMapping s || hasPathVariable s)

/-- Source `has_api_methods` (line 278). -/
def apiMethodCount (s : String) : Nat :=
  strCount s "@GetMapping" + strCount s "@PostMapping" + strCount s "@PutMapping"

/-- Source `is_restful_api` (line 279). -/
def isRestfulApi (s : String) : Bool :=
  decide (2 ≤ apiMethodCount s) || (hasRestController s && strHas s "@RequestMapping")

/-- Source `has_exception_handler` (line 320). -/
def hasExcHandler (s : String) : Bool := strHas s "@ExceptionHandler"

/-- Source `has_controller_advice` (line 321). -/
def hasControllerAdvice (s : String) : Bool :=
  strHas s "@RestControllerAdvice" || strHas s "@ControllerAdvice"

/-- Source `has_try_catch` (line 322). -/
def hasTryCatch (s : String) : Bool := strHas s "try" && strHas s "catch"

/-- Source `is_exception_handling` (line 324). -/
def isExceptionHandling (s : String) : Bool :=
  hasExcHandler s || hasControllerAdvice s || hasTryCatch s || strHas s "throws"

/-- Source `is_spring_error` (line 362). -/
def isSpringError (s : String) : Bool :=
  hasControllerAdvice s || (hasExcHandler s && strHas s "@")

/-- Source `has_webclient` (line 367). -/
def hasWebClient (s : String) : Bool := strHas s "WebClient" || strHas s "webClient"

/-- Source `has_reactive_ops` (line 368). -/
def hasReactiveOps (s : String) : Bool :=
  strHas s ".bodyToMono" || strHas s ".retrieve()"

/-- Source `is_reactive` (line 369). -/
def isReactive (s : String) : Bool :=
  (strHas s "Mono<" || strHas s "Flux<") && (hasWebClient s || hasReactiveOps s)

/-- The cohesion metric: the pattern-based if/elif cascade of
api_server.py lines 457-484. -/
def cohesion (s : String) : ℚ :=
  if isSingleton s then 0.92
  else if isFactory s then 0.85
  else if isBuilder s then 0.88
  else if isPrototype s then 0.82
  else if isAbstractFactory s then 0.80
  else if isAdapter s || isDecorator s || isProxy s then 0.78
  else if isComposite s || isFacade s || isBridge s then 0.75
  else if isFlyweight s then 0.73
  else if isStrategy s || isObserver s || isCommand s then 0.77
  else if isServiceLayer s then 0.75
  else if isSpringMvc s || isRestfulApi s then 0.70
  else if isExceptionHandling s || isSpringError s then 0.80
  else if isReactive s then 0.76
  else 0.60

end ApiServer

/-- Evaluate an ordered list of (guard, value) pairs with
first-match-wins semantics and a default. -/
def firstMatchValue : List (Bool × ℚ) → ℚ → ℚ
  | [], d => d
  | (b, v) :: rest, d => if b then v else firstMatchValue rest d

/-- The cohesion priority cascade exactly as the claim orders it, as an
explicit (guard, value) list over the pattern booleans. -/
def cohesionCascade (s : String) : List (Bool × ℚ) :=
  [(ApiServer.isSingleton s, 0.92), (ApiServer.isFactory s, 0.85),
   (ApiServer.isBuilder s, 0.88), (ApiServer.isPrototype s, 0.82),
   (ApiServer.isAbstractFactory s, 0.80),
   (ApiServer.isAdapter s || ApiServer.isDecorator s || ApiServer.isProxy s, 0.78),
   (ApiServer.isComposite s || ApiServer.isFacade s || ApiServer.isBridge s, 0.75),
   (ApiServer.isFlyweight s, 0.73),
   (ApiServer.isStrategy s || ApiServer.isObserver s || ApiServer.isCommand s, 0.77),
   (ApiServer.isServiceLayer s, 0.75),
   (ApiServer.isSpringMvc s || ApiServer.isRestfulApi s, 0.70),
   (ApiServer.isExceptionHandling s || ApiServer.isSpringError s, 0.80),
   (ApiServer.isReactive s, 0.76)]

/-- Claim C4: the cohesion metric is exactly the first-match-wins
priority cascade over the pattern booleans, in the claimed order, with
default 0.60. -/
theorem claim_C4_cohesion_cascade (s : String) :
    ApiServer.cohesion s = firstMatchValue (cohesionCascade s) 0.60 := by
  unfold ApiServer.cohesion cohesionCascade firstMatchValue
  rfl

/-- The `cyclomatic += java_code.count("case ") - 1` update guarded by
`num_switch > 0` (api_server.py lines 489-490). -/
def caseStep (s : String) (c : ℤ) : ℤ :=
  if 0 < numSwitch s then c + ((strCount s "case " : ℤ) - 1) else c

/-- The `cyclomatic += java_code.count("catch")` update guarded by
`"try" in java_code and "catch" in java_code` (lines 491-492). -/
def catchStep (s : String) (c : ℤ) : ℤ :=
  if strHas s "try" && strHas s "catch" then c + (strCount s "catch" : ℤ) else c

/-- The `cyclomatic` value built by the sequential updates of the
source (api_server.py lines 488-492). -/
def cyclomaticRaw (s : String) : ℤ :=
  catchStep s (caseStep s
    (1 + (numIf s : ℤ) + (numFor s : ℤ) + (numWhile s : ℤ) + (numSwitch s : ℤ)))

/-- The stored metric `cyclomatic_complexity = min(50, cyclomatic)`
(line 537). -/
def cyclomaticMetric (s : String) : ℤ := min 50 (cyclomaticRaw s)

/-- The closed formula of the claim for the cyclomatic metric: 1 plus
the line-based if/for/while/switch counts, plus `count("case ") - 1`
when a switch line is present, plus `count("catch")` when both `try` and
`catch` occur, clamped to a maximum of 50. -/
def cyclomaticFormula (s : String) : ℤ :=
  min 50
    (1 + (numIf s : ℤ) + (numFor s : ℤ) + (numWhile s : ℤ) + (numSwitch s : ℤ) +
      (if 0 < numSwitch s then (strCount s "case " : ℤ) - 1 else 0) +
      (if strHas s "try" = true ∧ strHas s "catch" = true
        then (strCount s "catch" : ℤ) else 0))

/-- Claim C3: the cyclomatic-complexity metric equals the claimed
closed formula for every input. -/
theorem claim_C3_cyclomatic (s : String) :
    cyclomaticMetric s = cyclomaticFormula s := by
  unfold cyclomaticMetric cyclomaticFormula cyclomaticRaw catchStep caseStep
  split_ifs <;> simp_all

/-- Comment-line test: `"//" in l or "/*" in l` (api_server.py line 546). -/
def commentLineB (l : List Char) : Bool :=
  hasSubL "//".data l || hasSubL "/*".data l

/-- Number of lines containing a comment marker. -/
def commentLineCount (s : String) : Nat :=
  ((linesOf s).filter commentLineB).length

/-- Total number of physical lines, `len(lines)`. -/
def totalLineCount (s : String) : Nat := (linesOf s).length

/-- Source `comment_ratio = len([l for l in lines if "//" in l or "/*" in l]) / max(1, len(lines))`
(api_server.py line 546). -/
def commentFrac (s : String) : ℚ :=
  (commentLineCount s : ℚ) / ((max 1 (totalLineCount s) : ℕ) : ℚ)

/-- Source `code_duplication`: a fixed placeholder constant 0.0 (line 544). -/
def codeDup (_s : String) : ℚ := 0

/-- Source `test_coverage`: a fixed placeholder constant 0.5 (line 545). -/
def testCoverage (_s : String) : ℚ := 0.5

/-- The Python conversion `int()` applied to a real value: truncation toward zero. -/
def pyInt (q : ℚ) : ℤ := if 0 ≤ q then ⌊q⌋ else ⌈q⌉

/-- The weighted quality sum of api_server.py lines 904-909. -/
def qualitySum (s : String) : ℚ :=
  (1 - min (codeDup s) 1) * 25 + testCoverage s * 25 +
  min (commentFrac s / 0.3) 1 * 25 + ApiServer.cohesion s * 25

/-- Source `quality_score = int(...)` (line 904). -/
def qualityScore (s : String) : ℤ := pyInt (qualitySum s)

/-- Source `complexity_score = min(int(metrics["cyclomatic_complexity"]), 100)`
(line 912). -/
def complexityScore (s : String) : ℤ := min (cyclomaticMetric s) 100

set_option maxHeartbeats 1000000 in
/-- The cohesion cascade only produces one of twelve literal values. -/
theorem cohesion_cases (s : String) :
    ApiServer.cohesion s = 0.92 ∨ ApiServer.cohesion s = 0.85 ∨
    ApiServer.cohesion s = 0.88 ∨ ApiServer.cohesion s = 0.82 ∨
    ApiServer.cohesion s = 0.80 ∨ ApiServer.cohesion s = 0.78 ∨
    ApiServer.cohesion s = 0.75 ∨ ApiServer.cohesion s = 0.73 ∨
    ApiServer.cohesion s = 0.77 ∨ ApiServer.cohesion s = 0.70 ∨
    ApiServer.cohesion s = 0.76 ∨ ApiServer.cohesion s = 0.60 := by
  by_cases h1 : ApiServer.isSingleton s = true
  · simp [ApiServer.cohesion, h1]
  by_cases h2 : ApiServer.isFactory s = true
  · simp [ApiServer.cohesion, h1, h2]
  by_cases h3 : ApiServer.isBuilder s = true
  · simp [ApiServer.cohesion, h1, h2, h3]
  by_cases h4 : ApiServer.isPrototype s = true
  · simp [ApiServer.cohesion, h1, h2, h3, h4]
  by_cases h5 : ApiServer.isAbstractFactory s = true
  · simp [ApiServer.cohesion, h1, h2, h3, h4, h5]
  by_cases h6 : (ApiServer.isAdapter s || ApiServer.isDecorator s || ApiServer.isProxy s) = true
  · simp [ApiServer.cohesion, h1, h2, h3, h4, h5, h6]
  by_cases h7 : (ApiServer.isComposite s || ApiServer.isFacade s || ApiServer.isBridge s) = true
  · simp [ApiServer.cohesion, h1, h2, h3, h4, h5, h6, h7]
  by_cases h8 : ApiServer.isFlyweight s = true
  · simp [ApiServer.cohesion, h1, h2, h3, h4, h5, h6, h7, h8]
  by_cases h9 : (ApiServer.isStrategy s || ApiServer.isObserver s || ApiServer.isCommand s) = true
  · simp [ApiServer.cohesion, h1, h2, h3, h4, h5, h6, h7, h8, h9]
  by_cases h10 : ApiServer.isServiceLayer s = true
  · simp [ApiServer.cohesion, h1, h2, h3, h4, h5, h6, h7, h8, h9, h10]
  by_cases h11 : (ApiServer.isSpringMvc s || ApiServer.isRestfulApi s) = true
  · simp [ApiServer.cohesion, h1, h2, h3, h4, h5, h6, h7, h8, h9, h10, h11]
  by_cases h12 : (ApiServer.isExceptionHandling s || ApiServer.isSpringError s) = true
  · simp [ApiServer.cohesion, h1, h2, h3, h4, h5, h6, h7, h8, h9, h10, h11, h12]
  by_cases h13 : ApiServer.isReactive s = true
  · simp [ApiServer.cohesion, h1, h2, h3, h4, h5, h6, h7, h8, h9, h10, h11, h12, h13]
  simp [ApiServer.cohesion, h1, h2, h3, h4, h5, h6, h7, h8, h9, h10, h11, h12, h13]

/-- The cohesion cascade only produces values between 0.60 and 0.92. -/
theorem cohesion_bounds (s : String) :
    (0.60 : ℚ) ≤ ApiServer.cohesion s ∧ ApiServer.cohesion s ≤ 0.92 := by
  rcases cohesion_cases s with h | h | h | h | h | h | h | h | h | h | h | h <;>
    rw [h] <;> norm_num

/-- The weighted quality sum always lies between 0 and 100. -/
theorem qualitySum_bounds (s : String) :
    0 ≤ qualitySum s ∧ qualitySum s ≤ 100 := by
  obtain ⟨hc1, hc2⟩ := cohesion_bounds s
  have hcf : (0 : ℚ) ≤ commentFrac s := by
    unfold commentFrac
    positivity
  have h30 : (0 : ℚ) ≤ min (commentFrac s / 0.3) 1 :=
    le_min (by positivity) (by norm_num)
  have h31 : min (commentFrac s / 0.3) 1 ≤ (1 : ℚ) := min_le_right _ _
  have hm : min (codeDup s) 1 = 0 := by norm_num [codeDup]
  unfold qualitySum testCoverage
  rw [hm]
  constructor
  · linarith
  · linarith

/-- The sequentially-built cyclomatic value is always at least 1. -/
theorem cyclomaticRaw_pos (s : String) : 1 ≤ cyclomaticRaw s := by
  unfold cyclomaticRaw catchStep caseStep
  split_ifs <;> omega

/-- Claim C6: for every input, both the quality score and the
complexity score lie between 0 and 100. -/
theorem claim_C6_score_bounds (s : String) :
    0 ≤ qualityScore s ∧ qualityScore s ≤ 100 ∧
    0 ≤ complexityScore s ∧ complexityScore s ≤ 100 := by
  obtain ⟨h0, h100⟩ := qualitySum_bounds s
  have hq : qualityScore s = ⌊qualitySum s⌋ := by
    unfold qualityScore pyInt
    rw [if_pos h0]
  have hcyc := cyclomaticRaw_pos s
  refine ⟨?_, ?_, ?_, ?_⟩
  · rw [hq]
    exact Int.floor_nonneg.mpr h0
  · rw [hq]
    have hfl : (⌊qualitySum s⌋ : ℚ) ≤ 100 := le_trans (Int.floor_le _) h100
    exact_mod_cast hfl
  · unfold complexityScore cyclomaticMetric
    omega
  · unfold complexityScore
    omega

/-- Modelled from the spec: "rounded to the nearest integer"
(round half upward). -/
def roundNearest (q : ℚ) : ℤ := ⌊q + 1/2⌋

/-- The quality score as the claim states it: the weighted sum rounded
to the nearest integer. -/
def qualityScoreRounded (s : String) : ℤ := roundNearest (qualitySum s)

/-- On input "Strategy" only the ninth cascade branch fires. -/
theorem strategy_cohesion : ApiServer.cohesion "Strategy" = 0.77 := by
  have e1 : ApiServer.isSingleton "Strategy" = false := by decide
  have e2 : ApiServer.isFactory "Strategy" = false := by decide
  have e3 : ApiServer.isBuilder "Strategy" = false := by decide
  have e4 : ApiServer.isPrototype "Strategy" = false := by decide
  have e5 : ApiServer.isAbstractFactory "Strategy" = false := by decide
  have e6 : ApiServer.isAdapter "Strategy" = false := by decide
  have e7 : ApiServer.isDecorator "Strategy" = false := by decide
  have e8 : ApiServer.isProxy "Strategy" = false := by decide
  have e9 : ApiServer.isComposite "Strategy" = false := by decide
  have e10 : ApiServer.isFacade "Strategy" = false := by decide
  have e11 : ApiServer.isBridge "Strategy" = false := by decide
  have e12 : ApiServer.isFlyweight "Strategy" = false := by decide
  have e13 : ApiServer.isStrategy "Strategy" = true := by decide
  simp [ApiServer.cohesion, e1, e2, e3, e4, e5, e6, e7, e8, e9, e10, e11, e12, e13]

/-- The input "Strategy" has no comment lines. -/
theorem strategy_commentFrac : commentFrac "Strategy" = 0 := by
  have h1 : commentLineCount "Strategy" = 0 := by decide
  simp [commentFrac, h1]

/-- The weighted sum on "Strategy" is 56.75. -/
theorem strategy_qualitySum : qualitySum "Strategy" = 227 / 4 := by
  rw [qualitySum, strategy_cohesion, strategy_commentFrac]
  norm_num [codeDup, testCoverage]

/-- Claim C5 counterexample: on input "Strategy" the weighted sum is
56.75; the code (Python `int()`, truncation) yields 56, while rounding
to the nearest integer as claimed would yield 57, so the claim as
stated is false. -/
theorem claim_C5_counterexample :
    qualityScore "Strategy" = 56 ∧ qualityScoreRounded "Strategy" = 57 := by
  constructor
  · unfold qualityScore pyInt
    rw [strategy_qualitySum]
    rw [if_pos (by norm_num)]
    rw [Int.floor_eq_iff]
    norm_num
  · unfold qualityScoreRounded roundNearest
    rw [strategy_qualitySum]
    rw [Int.floor_eq_iff]
    norm_num

/-- Claim C5 (amended): the quality score is the weighted sum
truncated to an integer (the greatest integer not exceeding the sum,
which is nonnegative), not rounded to the nearest integer. -/
theorem claim_C5_amended_truncation (s : String) :
    (qualityScore s : ℚ) ≤ qualitySum s ∧ qualitySum s < qualityScore s + 1 := by
  obtain ⟨h0, _⟩ := qualitySum_bounds s
  have hq : qualityScore s = ⌊qualitySum s⌋ := by
    unfold qualityScore pyInt
    rw [if_pos h0]
  rw [hq]
  exact ⟨Int.floor_le _, Int.lt_floor_add_one _⟩

/-- Modelled from the spec (claim C7): the uniform membership test "the
line contains the keyword followed by a space or `(`". -/
def uniformKeywordLineB (kw : String) (l : List Char) : Bool :=
  hasSubL (kw ++ " ").data l || hasSubL (kw ++ "(").data l

/-- Claim C7 counterexample: the line "switcher" counts toward the
switch line count (the source tests only for the bare substring
`switch`), yet `switch` is not followed by a space or `(` there, so the
claimed uniform membership test is false for `switch`. -/
theorem claim_C7_counterexample :
    numSwitch "switcher" = 1 ∧
    switchLineB "switcher".data = true ∧
    uniformKeywordLineB "switch" "switcher".data = false := by
  decide

/-- The actual membership test shared by the `if` and `for` counts:
space-keyword-space, space-keyword-paren, or keyword-paren anywhere. -/
def spacedKeywordLineB (kw : String) (l : List Char) : Bool :=
  hasSubL (" " ++ kw ++ " ").data l || hasSubL (" " ++ kw ++ "(").data l ||
  hasSubL (kw ++ "(").data l

/-- Claim C7 (amended): the four keyword line tests are not uniform.
A line counts toward `if`/`for` iff it contains the keyword surrounded
by spaces, or the keyword followed by `(` with or without a leading
space; toward `while` only with a leading space; toward `switch` iff it
contains the bare substring `switch` anywhere. -/
theorem claim_C7_amended_line_tests (s : String) :
    numIf s = ((linesOf s).filter (spacedKeywordLineB "if")).length ∧
    numFor s = ((linesOf s).filter (spacedKeywordLineB "for")).length ∧
    numWhile s =
      ((linesOf s).filter
        (fun l => hasSubL " while ".data l || hasSubL " while(".data l)).length ∧
    numSwitch s = ((linesOf s).filter (fun l => hasSubL "switch".data l)).length := by
  refine ⟨?_, ?_, ?_, ?_⟩
  · unfold numIf
    exact congrArg List.length (List.filter_congr (fun l _ => by rfl))
  · unfold numFor
    exact congrArg List.length (List.filter_congr (fun l _ => by rfl))
  · unfold numWhile
    exact congrArg List.length (List.filter_congr (fun l _ => by rfl))
  · unfold numSwitch
    exact congrArg List.length (List.filter_congr (fun l _ => by rfl))

/-! ## Pattern detection (`detect_patterns_directly`, direct_detection.py lines 9-562) -/

/-- One pattern match produced by `detect_patterns_directly`
(`references` is always the empty list in the source and is omitted). -/
structure PatternHit where
  pattern : String
  confidence : ℚ
  theory : String
deriving DecidableEq, Repr

/-- The singleton pattern match record (direct_detection.py lines 27-32). -/
def singletonHit : PatternHit :=
  ⟨"singleton_design_pattern", 0.95, "Singleton Design Pattern"⟩

namespace DirectDetection

/-- Rule 1, singleton (direct_detection.py lines 23-26). -/
def singletonRule (s : String) : Bool :=
  (strHas s "private " && strHas s "()") &&
  ((strHas s "static" && strHas (lowerStr s) "instance") || strHas s "private static") &&
  (strHas s "getInstance" || strHas s "instance()")

/-- Rule 2, factory (lines 35-41). -/
def factoryRule (s : String) : Bool :=
  ((strHas s "getCar" || strHas s "getProduct" || strHas s "createButton" ||
      strHas s "create" || strHas s "Factory") &&
    ((strHas s "switch" && strHas s "return new") ||
      (decide (2 ≤ numIf s) && strHas s "return new"))) ||
  (strHas s "Factory" && strHas s "return new" && decide (1 ≤ numStatic s))

/-- Rule 3, builder (lines 50-56). -/
def builderRule (s : String) : Bool :=
  (((strHas s "Builder" || strHas (lowerStr s) "builder") && decide (2 ≤ numClasses s)) &&
    (strHas s "build()" || strHas s ".build()") && strHas s "return this") ||
  (decide (2 ≤ strCount s "return this") && (strHas s "build()" || strHas s ".build()"))

/-- Rule 4, prototype (lines 65-69); in `has_copy_constructor` the
source operand `("public " in java_code or "private ")` is always
truthy in Python, so it reduces to the `"(this)"` test. -/
def prototypeRule (s : String) : Bool :=
  (strHas s ".clone()" || strHas s "clone()" ||
    (strHas s "@Override" && strHas (lowerStr s) "clone")) ||
  (strHas s "Cloneable" || strHas s "implements Cloneable") ||
  (strHas s "(this)" && decide (1 ≤ numMethods s))

/-- Rule 5, abstract factory (lines 78-82). -/
def abstractFactoryRule (s : String) : Bool :=
  (strHas s "AbstractFactory" || (strHas (lowerStr s) "abstract" && strHas s "Factory")) ||
  ((strHas s "interface" && strHas s "Factory") &&
    (decide (2 ≤ strCount s "create") || decide (2 ≤ strCount s "Factory")) &&
    decide (1 ≤ numInterfaces s))

/-- Rule 6, adapter (lines 93-97). -/
def adapterRule (s : String) : Bool :=
  strHas s "Adapter" ||
  ((strHas (lowerStr s) "adaptee" || strHas (lowerStr s) "wrapped") && strHas s "implements") ||
  ((strHas s "adaptee." || strHas s ".playVlc" || strHas s "legacy.") && strHas s "implements")

/-- Rule 7, decorator (lines 106-109). -/
def decoratorRule (s : String) : Bool :=
  strHas s "Decorator" ||
  ((strHas (lowerStr s) "component" || strHas s "Component") &&
    (strHas s "component." && strHas s "implements") && decide (1 ≤ numClasses s))

/-- Rule 8, proxy (lines 118-122). -/
def proxyRule (s : String) : Bool :=
  strHas s "Proxy" ||
  ((strHas (lowerStr s) "real" && (strHas s "Subject" || strHas s "Image")) &&
    (strHas s "checkAccess" || (strHas (lowerStr s) "check" && strHas (lowerStr s) "access"))) ||
  (strHas (lowerStr s) "real." && strHas s "implements")

/-- Rule 9, composite (lines 131-135). -/
def compositeRule (s : String) : Bool :=
  strHas s "Composite" ||
  ((strHas (lowerStr s) "children" || strHas s "List<Component>") &&
    (strHas s ".add(" && (strHas (lowerStr s) "children" || strHas s "List<Component>"))) ||
  (strHas s "for" && strHas (lowerStr s) "children")

/-- Rule 10, facade (line 144). -/
def facadeRule (s : String) : Bool := strHas s "Facade"

/-- Rule 11, bridge (lines 153-156). -/
def bridgeRule (s : String) : Bool :=
  strHas s "Bridge" ||
  ((strHas (lowerStr s) "implementation" || strHas s "DrawingAPI") &&
    (strHas s "abstract" && (strHas s "Shape" || strHas s "class")))

/-- Rule 12, flyweight (lines 165-168). -/
def flyweightRule (s : String) : Bool :=
  strHas s "Flyweight" ||
  ((strHas (lowerStr s) "cache" || strHas s "Map<" || strHas s "HashMap") &&
    (strHas s "containsKey" || (strHas s "get" && strHas s "put")))

/-- Rule 13, strategy (lines 179-182). -/
def strategyRule (s : String) : Bool :=
  strHas s "Strategy" ||
  (strHas s "Context" && (strHas s "setStrategy" || strHas (lowerStr s) "strategy"))

/-- Rule 14, observer (lines 191-195). -/
def observerRule (s : String) : Bool :=
  strHas s "Observer" ||
  ((strHas s "List<Observer>" || strHas (lowerStr s) "observers") &&
    ((strHas (lowerStr s) "notify" || strHas (lowerStr s) "update") ||
      (strHas (lowerStr s) "attach" || strHas (lowerStr s) "register")))

/-- Rule 15, command (lines 204-207). -/
def commandRule (s : String) : Bool :=
  strHas s "Command" ||
  ((strHas s "execute()" || strHas s "execute(") &&
    (strHas (lowerStr s) "receiver" || (strHas s "Light" && strHas s "Command")))

/-- Rule 16, template method (lines 216-219). -/
def templateMethodRule (s : String) : Bool :=
  strHas s "Template" ||
  ((strHas s "abstract" && decide (2 ≤ numMethods s)) && strHas s "abstract void") ||
  (strHas s "final" && strHas (lowerStr s) "process")

/-- Rule 17, iterator (lines 228-232). -/
def iteratorRule (s : String) : Bool :=
  strHas s "Iterator" || strHas s "implements Iterator" ||
  (strHas s "hasNext()" && strHas s "next()")

/-- Rule 18, state (lines 241-244). -/
def stateRule (s : String) : Bool :=
  (strHas s "State" && decide (1 ≤ numClasses s)) ||
  (strHas s "setState" || strHas s "changeState") ||
  strHas s "interface State"

/-- Rule 19, chain of responsibility (lines 253-256). -/
def chainRule (s : String) : Bool :=
  (strHas s "Chain" || strHas s "Handler") ||
  ((strHas s "nextHandler" || strHas s "setNext") &&
    (strHas s "handleRequest" || strHas s "handle("))

/-- Rule 20, mediator (lines 265-268). -/
def mediatorRule (s : String) : Bool :=
  strHas s "Mediator" ||
  ((strHas s "Chat" && strHas s "Mediator") && strHas s "sendMessage")

/-- Rule 21, memento (lines 277-281). -/
def mementoRule (s : String) : Bool :=
  strHas s "Memento" || strHas s "Caretaker" || strHas s "Originator" ||
  ((strHas s "saveState" || strHas (lowerStr s) "save") && strHas (lowerStr s) "restore")

/-- Rule 22, visitor (lines 290-293). -/
def visitorRule (s : String) : Bool :=
  strHas s "Visitor" ||
  ((strHas s "accept(" || strHas s "accept (") && strHas s "visit(")

/-- Rule 23, interpreter (lines 302-305). -/
def interpreterRule (s : String) : Bool :=
  (strHas s "Interpreter" || strHas s "Expression") ||
  (strHas s "interpret()" || strHas s "interpret(") ||
  (strHas s "NumberExpression" || strHas s "AddExpression")

/-- Rule 24, dependency injection (line 316). -/
def dependencyInjectionRule (s : String) : Bool :=
  strHas s "@Autowired" || strHas s "@Inject"

/-- Rule 25, Spring MVC (lines 325-327). -/
def springMvcRule (s : String) : Bool :=
  (strHas s "@RestController" || strHas s "@Controller") &&
  (strHas s "@GetMapping" || strHas s "@PostMapping" || strHas s "@RequestMapping")

/-- Rule 26, RESTful API (lines 336-337). -/
def restfulApiRule (s : String) : Bool :=
  decide (2 ≤ strCount s "@GetMapping" + strCount s "@PostMapping" + strCount s "@PutMapping") ||
  ((strHas s "@RestController" || strHas s "@Controller") && strHas s "@RequestMapping")

/-- Rule 27, repository (line 346). -/
def repositoryRule (s : String) : Bool :=
  strHas s "@Repository" || strHas s "JpaRepository" || strHas s "CrudRepository"

/-- Rule 28, service layer (line 355). -/
def serviceLayerRule (s : String) : Bool := strHas s "@Service"

/-- Rule 29, DTO (lines 364-366). -/
def dtoRule (s : String) : Bool :=
  strHas s "DTO" ||
  (((strHas s "getUsername" || strHas s "get") && (strHas s "setUsername" || strHas s "set")) &&
    decide (2 ≤ numMethods s) && decide (numMethods s ≤ 10))

/-- Rule 30, AOP (line 375); Python precedence: `a or ((b or c) and d)`. -/
def aopRule (s : String) : Bool :=
  strHas s "@Aspect" ||
  ((strHas s "@Before" || strHas s "@After") && strHas s "JoinPoint")

/-- Rule 31, OOP fundamentals (line 386). -/
def oopRule (s : String) : Bool :=
  (strHas s "extends" || strHas s "@Override") && decide (1 ≤ numClasses s)

/-- Rule 32, collections framework (lines 395-399). -/
def collectionsRule (s : String) : Bool :=
  ((strHas s "ArrayList" || strHas s "List<") || (strHas s "HashSet" || strHas s "Set<") ||
    (strHas s "HashMap" || strHas s "Map<")) &&
  (strHas s ".add(" || strHas s ".put(")

/-- Rule 33, exception handling (line 408). -/
def exceptionHandlingRule (s : String) : Bool :=
  strHas s "@ExceptionHandler" || strHas s "@RestControllerAdvice" ||
  strHas s "@ControllerAdvice"

/-- Rule 34, conditional control flow (line 417). -/
def conditionalFlowRule (s : String) : Bool :=
  (strHas s "switch" && strHas s "case") ||
  (strHas s "else if" && decide (1 ≤ numIf s))

/-- Rule 35, loops and iteration (lines 426-427). -/
def loopsRule (s : String) : Bool :=
  decide (1 ≤ numFor s) || strHas s "forEach"

/-- Rule 36, basic programming constructs (line 436). -/
def basicProgrammingRule (s : String) : Bool :=
  decide (numMethods s ≤ 5) && decide (numClasses s ≤ 2)

/-- Rule 37, Optional null safety (line 447). -/
def optionalRule (s : String) : Bool :=
  strHas s "Optional<" || strHas s "Optional." || strHas s ".orElse"

/-- Rule 38, functional programming (line 456). -/
def functionalRule (s : String) : Bool :=
  strHas s "->" || strHas s ".stream()" || strHas s "Collectors"

/-- Rule 39, Spring Boot error handling (line 467). -/
def springErrorRule (s : String) : Bool :=
  strHas s "@ControllerAdvice" || (strHas s "@ExceptionHandler" && strHas s "@")

/-- Rule 40, reactive programming (line 476). -/
def reactiveRule (s : String) : Bool :=
  (strHas s "Mono<" || strHas s "Flux<") && (strHas s "WebClient" || strHas s "webClient")

/-- Rule 41, utility libraries (line 485). -/
def utilityRule (s : String) : Bool := strHas s "Utils" || strHas s "Helper"

/-- Rule 42, Lombok and JPA annotations (line 494). -/
def lombokJpaRule (s : String) : Bool :=
  strHas s "@Data" || strHas s "@Entity" || strHas s "@Id" || strHas s "@GeneratedValue"

/-- Rule 43, core annotations and DI (line 505). -/
def coreAnnotationsRule (s : String) : Bool :=
  (strHas s "@Component" || strHas s "@Service" || strHas s "@Repository") &&
  (strHas s "@Autowired" || strHas s "@Value")

/-- Rule 44, web MVC annotations (line 514). -/
def webMvcRule (s : String) : Bool :=
  strHas s "@Controller" || strHas s "@RequestParam"

/-- Rule 45, HTTP request processing (line 523). -/
def httpProcessingRule (s : String) : Bool :=
  strHas s "@RequestBody" || strHas s "@ResponseBody" || strHas s "ResponseEntity"

/-- Rule 46, OpenAPI documentation (line 534). -/
def openapiRule (s : String) : Bool :=
  strHas s "@Api" || strHas s "@ApiOperation" || strHas s "@ApiResponse"

/-- Rule 47, Spring Data JPA (line 545). -/
def springDataJpaRule (s : String) : Bool :=
  strHas s "@Entity" || strHas s "JpaRepository" || strHas s "@Query"

/-- Rule 48, batch processing (line 554). -/
def batchRule (s : String) : Bool :=
  strHas s "@EnableBatchProcessing" || strHas s "JobBuilderFactory" || strHas s ".chunk("

/-- A conditional single-element list: the `detected.append(...)`
performed by a rule block when its guard holds. -/
def hitIf (b : Bool) (h : PatternHit) : List PatternHit := if b then [h] else []

/-- Source `detect_patterns_directly`: all 48 rule blocks evaluated
independently, results concatenated in source order. -/
def detectPatterns (s : String) : List PatternHit :=
  hitIf (singletonRule s) singletonHit ++
  hitIf (factoryRule s) ⟨"factory_design_pattern", 0.92, "Factory Design Pattern"⟩ ++
  hitIf (builderRule s) ⟨"builder_design_pattern", 0.93, "Builder Design Pattern"⟩ ++
  hitIf (prototypeRule s) ⟨"prototype_design_pattern", 0.90, "Prototype Design Pattern"⟩ ++
  hitIf (abstractFactoryRule s)
    ⟨"abstract_factory_design_pattern", 0.88, "Abstract Factory Design Pattern"⟩ ++
  hitIf (adapterRule s) ⟨"adapter_design_pattern", 0.91, "Adapter Design Pattern"⟩ ++
  hitIf (decoratorRule s) ⟨"decorator_design_pattern", 0.90, "Decorator Design Pattern"⟩ ++
  hitIf (proxyRule s) ⟨"proxy_design_pattern", 0.89, "Proxy Design Pattern"⟩ ++
  hitIf (compositeRule s) ⟨"composite_design_pattern", 0.88, "Composite Design Pattern"⟩ ++
  hitIf (facadeRule s) ⟨"facade_design_pattern", 0.87, "Facade Design Pattern"⟩ ++
  hitIf (bridgeRule s) ⟨"bridge_design_pattern", 0.86, "Bridge Design Pattern"⟩ ++
  hitIf (flyweightRule s) ⟨"flyweight_design_pattern", 0.85, "Flyweight Design Pattern"⟩ ++
  hitIf (strategyRule s) ⟨"strategy_design_pattern", 0.90, "Strategy Design Pattern"⟩ ++
  hitIf (observerRule s) ⟨"observer_design_pattern", 0.89, "Observer Design Pattern"⟩ ++
  hitIf (commandRule s) ⟨"command_design_pattern", 0.88, "Command Design Pattern"⟩ ++
  hitIf (templateMethodRule s)
    ⟨"template_method_design_pattern", 0.87, "Template Method Design Pattern"⟩ ++
  hitIf (iteratorRule s) ⟨"iterator_design_pattern", 0.92, "Iterator Design Pattern"⟩ ++
  hitIf (stateRule s) ⟨"state_design_pattern", 0.86, "State Design Pattern"⟩ ++
  hitIf (chainRule s)
    ⟨"chain_of_responsibility_design_pattern", 0.85, "Chain Of Responsibility Design Pattern"⟩ ++
  hitIf (mediatorRule s) ⟨"mediator_design_pattern", 0.84, "Mediator Design Pattern"⟩ ++
  hitIf (mementoRule s) ⟨"memento_design_pattern", 0.86, "Memento Design Pattern"⟩ ++
  hitIf (visitorRule s) ⟨"visitor_design_pattern", 0.88, "Visitor Design Pattern"⟩ ++
  hitIf (interpreterRule s) ⟨"interpreter_design_pattern", 0.87, "Interpreter Design Pattern"⟩ ++
  hitIf (dependencyInjectionRule s) ⟨"dependency_injection", 0.94, "Dependency Injection"⟩ ++
  hitIf (springMvcRule s) ⟨"spring_mvc_pattern", 0.93, "Spring MVC Pattern"⟩ ++
  hitIf (restfulApiRule s) ⟨"restful_api_pattern", 0.92, "RESTful API Pattern"⟩ ++
  hitIf (repositoryRule s) ⟨"repository_pattern", 0.93, "Repository Pattern"⟩ ++
  hitIf (serviceLayerRule s) ⟨"service_layer_pattern", 0.91, "Service Layer Pattern"⟩ ++
  hitIf (dtoRule s) ⟨"dto_pattern", 0.89, "DTO Pattern"⟩ ++
  hitIf (aopRule s) ⟨"aop_pattern", 0.92, "AOP Pattern"⟩ ++
  hitIf (oopRule s) ⟨"oop_fundamentals", 0.88, "OOP Fundamentals"⟩ ++
  hitIf (collectionsRule s) ⟨"collections_framework", 0.90, "Collections Framework"⟩ ++
  hitIf (exceptionHandlingRule s) ⟨"exception_handling", 0.92, "Exception Handling"⟩ ++
  hitIf (conditionalFlowRule s) ⟨"conditional_control_flow", 0.86, "Conditional Control Flow"⟩ ++
  hitIf (loopsRule s) ⟨"loops_and_iteration", 0.85, "Loops And Iteration"⟩ ++
  hitIf (basicProgrammingRule s)
    ⟨"basic_programming_constructs", 0.80, "Basic Programming Constructs"⟩ ++
  hitIf (optionalRule s) ⟨"optional_null_safety", 0.91, "Optional Null Safety"⟩ ++
  hitIf (functionalRule s) ⟨"functional_programming", 0.90, "Functional Programming"⟩ ++
  hitIf (springErrorRule s)
    ⟨"spring_boot_error_handling", 0.93, "Spring Boot Error Handling"⟩ ++
  hitIf (reactiveRule s) ⟨"reactive_programming", 0.92, "Reactive Programming"⟩ ++
  hitIf (utilityRule s) ⟨"utility_libraries", 0.84, "Utility Libraries"⟩ ++
  hitIf (lombokJpaRule s) ⟨"lombok_jpa_annotations", 0.91, "Lombok JPA Annotations"⟩ ++
  hitIf (coreAnnotationsRule s) ⟨"core_annotations_di", 0.90, "Core Annotations DI"⟩ ++
  hitIf (webMvcRule s) ⟨"web_mvc_annotations", 0.89, "Web MVC Annotations"⟩ ++
  hitIf (httpProcessingRule s) ⟨"http_request_processing", 0.88, "HTTP Request Processing"⟩ ++
  hitIf (openapiRule s) ⟨"openapi_documentation", 0.91, "OpenAPI Documentation"⟩ ++
  hitIf (springDataJpaRule s) ⟨"spring_data_jpa", 0.92, "Spring Data JPA"⟩ ++
  hitIf (batchRule s) ⟨"batch_processing_etl", 0.89, "Batch Processing ETL"⟩

end DirectDetection

/-- The pattern keys of the `detectedConcepts` list of the report (each
concept is built one-to-one from a pattern hit). -/
def detectedConceptKeys (s : String) : List String :=
  (DirectDetection.detectPatterns s).map PatternHit.pattern

/-- Claim C8: a singleton-shaped input satisfying none of the
vulnerability predicates yields the singleton pattern match with
confidence 0.95, an empty vulnerabilities list, and overall risk LOW. -/
theorem claim_C8_singleton_scenario (s : String)
    (hsing : DirectDetection.singletonRule s = true)
    (h1 : sqlInjectionPred s = false) (h2 : xssPred s = false)
    (h3 : pathTraversalPred s = false) (h4 : xxePred s = false)
    (h5 : authBypassPred s = false) (h6 : deserializationPred s = false) :
    singletonHit ∈ DirectDetection.detectPatterns s ∧
    "singleton_design_pattern" ∈ detectedConceptKeys s ∧
    vulnFindings s = [] ∧ overallRisk s = "LOW" := by
  have hm : singletonHit ∈ DirectDetection.detectPatterns s := by
    unfold DirectDetection.detectPatterns
    refine List.mem_append_left _ ?_
    simp [DirectDetection.hitIf, hsing]
  have hnone : (detectVuln s).vulnerability = "none" := by
    unfold detectVuln
    rw [h1, h2, h3, h4, h5, h6]
    simp only [Bool.false_eq_true, if_false]
    split
    · rfl
    · rfl
  have hvf : vulnFindings s = [] := by
    unfold vulnFindings
    rw [if_pos hnone]
  refine ⟨hm, ?_, hvf, ?_⟩
  · simpa [detectedConceptKeys] using List.mem_map_of_mem PatternHit.pattern hm
  · unfold overallRisk riskOf
    rw [hvf]
    rfl

/-- Witness for C8 at a concrete singleton-shaped snippet. -/
theorem claim_C8_singleton_scenario_witness :
    singletonHit ∈
      DirectDetection.detectPatterns "private static Database instance; getInstance()" ∧
    "singleton_design_pattern" ∈
      detectedConceptKeys "private static Database instance; getInstance()" ∧
    vulnFindings "private static Database instance; getInstance()" = [] ∧
    overallRisk "private static Database instance; getInstance()" = "LOW" :=
  claim_C8_singleton_scenario "private static Database instance; getInstance()"
    (by decide) (by decide) (by decide) (by decide) (by decide) (by decide) (by decide)

/-! ## Recommendations (`analyze_code`, api_server.py lines 966-990) -/

/-- The ordered conditional recommendation messages
(api_server.py lines 966-986). -/
def recommendBase (s : String) : List String :=
  (if 0 < ((vulnFindings s).filter (fun v => v.severity == Severity.CRITICAL)).length then
    ["Critical security issue detected! Immediate action required."] else []) ++
  (if 0 < ((vulnFindings s).filter (fun v => v.severity == Severity.HIGH)).length then
    ["High severity vulnerability detected. Address immediately."] else []) ++
  (if 70 < complexityScore s then
    ["Consider breaking down complex methods into smaller, more manageable functions"]
   else []) ++
  (if qualityScore s < 60 then
    ["Add proper exception handling with try-catch blocks"] else []) ++
  (if testCoverage s < 0.7 then
    ["Increase test coverage to at least 70%"] else [])

/-- The `recommendations` list of the report, with the fallback message when
no conditional message was generated (api_server.py lines 988-990). -/
def recommendList (s : String) : List String :=
  if recommendBase s = [] then
    ["Code follows good practices. Continue maintaining quality standards."]
  else recommendBase s

/-- Claim C10: since the test-coverage metric is the constant 0.5,
the recommendations of every report contain the raise-coverage message, the
list is never empty, and the fallback message is never emitted. -/
theorem claim_C10_recommendations (s : String) :
    "Increase test coverage to at least 70%" ∈ recommendList s ∧
    recommendList s ≠ [] ∧
    "Code follows good practices. Continue maintaining quality standards." ∉
      recommendList s := by
  have hc : testCoverage s < 0.7 := by norm_num [testCoverage]
  have hmem : "Increase test coverage to at least 70%" ∈ recommendBase s := by
    unfold recommendBase
    rw [if_pos hc]
    exact List.mem_append_right _ (List.mem_singleton_self _)
  have hne : recommendBase s ≠ [] := List.ne_nil_of_mem hmem
  have hrl : recommendList s = recommendBase s := by
    unfold recommendList
    rw [if_neg hne]
  refine ⟨by rw [hrl]; exact hmem, by rw [hrl]; exact hne, ?_⟩
  rw [hrl]
  unfold recommendBase
  intro hbad
  simp only [List.mem_append] at hbad
  rcases hbad with (((h | h) | h) | h) | h <;> (split_ifs at h <;> simp_all)
